import Mathlib

/-!
Embedding of gooroom-desktop-mode-switcher and its checked properties.

Two programs are embedded:

* `src/gooroom-desktop-mode-switcher.c` (namespace `Switcher`): the confirmation
  dialog, the privileged mode switch, the settings toggle, the logout attempt and
  the restore path;
* `src/gooroom-screen-keyboard-toggler.c` (namespace `Toggler`).

Both programs are straight-line C over GLib/GTK calls.  The outside world (search
path, subprocesses, the sentinel file, GSettings) is an oracle `Env` whose answers
may depend on everything that has happened so far (the history, a list of
`Event`s).  Each C function becomes a Lean function that takes the history at its
entry and returns what it returns in C together with the events it emits, in
program order.
-/

namespace Gooroom

/-! Constants of the sources. -/

/-- The sentinel file: `#define ETC_GOOROOM_TABLET_MODE`. -/
def ETC_GOOROOM_TABLET_MODE : String := "/etc/gooroom/.tablet-mode"

/-- Schema of the toolkit-accessibility key: `#define DESKTOP_INTERFACE_SCHEMA_NAME`. -/
def DESKTOP_INTERFACE_SCHEMA_NAME : String := "org.gnome.desktop.interface"

/-- Schema of the screen-keyboard key: `#define DESKTOP_APPLICATION_SCHEMA_NAME`. -/
def DESKTOP_APPLICATION_SCHEMA_NAME : String := "org.gnome.desktop.a11y.applications"

/-- GTK's `GTK_RESPONSE_YES` (value of the GTK headers). -/
def GTK_RESPONSE_YES : Int := -8

/-- GTK's `GTK_RESPONSE_NO` (value of the GTK headers). -/
def GTK_RESPONSE_NO : Int := -9

/-- GTK's `GTK_RESPONSE_DELETE_EVENT`, the response of a dismissed dialog. -/
def GTK_RESPONSE_DELETE_EVENT : Int := -4

/-! The outside world. -/

/-- Outcome of `g_spawn_command_line_sync`: it returns `FALSE` (`failed`, with or
without a `GError` message) when the command line could not be parsed or the child
could not be started, and `TRUE` (`exited`) once the child has run to completion,
whatever its exit status. -/
inductive SpawnResult where
  | failed (error : Option String)
  | exited (status : Int)
  deriving DecidableEq, Repr

/-- The `gboolean` that `g_spawn_command_line_sync` returns. -/
def SpawnResult.ret : SpawnResult → Bool
  | .failed _ => false
  | .exited _ => true

/-- The C function from which a library call is made. -/
inductive Site where
  | launch
  | toggle
  | logout
  | toggler
  deriving DecidableEq, Repr

/-- The callbacks handed to `g_idle_add`. -/
inductive Callback where
  | desktop_mode_switching_idle
  | logout_idle_cb
  deriving DecidableEq, Repr

/-- What the programs do, as seen from outside, plus entry and return marks of the
two helper functions the flow calls. -/
inductive Event where
  /-- Call of `g_file_test (path, G_FILE_TEST_EXISTS)` and its answer. -/
  | file_test (path : String) (found : Bool)
  /-- The yes/no dialog of `desktop_mode_switching_idle` is shown. -/
  | confirm_dialog (title message : String)
  /-- The user answers the yes/no dialog. -/
  | response (id : Int)
  /-- Call of `gtk_widget_destroy` on the yes/no dialog. -/
  | widget_destroy
  /-- Entry into `launch_tablet_mode_switching_command (on)`. -/
  | call_launch (on_ : Bool)
  /-- Return from `launch_tablet_mode_switching_command (on)` with value `ret`. -/
  | ret_launch (on_ : Bool) (ret : Bool)
  /-- Entry into `screen_keyboard_toggled (on)`. -/
  | call_toggle (on_ : Bool)
  /-- Return from `screen_keyboard_toggled (on)`. -/
  | ret_toggle (on_ : Bool)
  /-- Call of `g_find_program_in_path (program)` and its answer. -/
  | find (site : Site) (program : String) (result : Option String)
  /-- Call of `g_spawn_command_line_sync (cmdline, ...)` and its outcome. -/
  | spawn (site : Site) (cmdline : String) (result : SpawnResult)
  /-- Call of `g_warning`. -/
  | warning (text : String)
  /-- Call of `show_error_dialog (title, message)` with a non-NULL message: a modal error
  dialog is run and destroyed. -/
  | error_dialog (title message : String)
  /-- Call of `g_idle_add (cb, NULL)`. -/
  | idle_add (cb : Callback)
  /-- Call of `gtk_main_quit ()`. -/
  | main_quit
  /-- Call of `syslog (LOG_ERR, text)`. -/
  | syslog (text : String)
  /-- Call of `g_settings_schema_source_lookup` for schema `name` and whether it is non-NULL. -/
  | schema_lookup (name : String) (found : Bool)
  /-- Call of `g_settings_new_full` and whether it is non-NULL. -/
  | settings_new (created : Bool)
  /-- Call of `g_settings_get_boolean (settings, key)` and its answer. -/
  | get_boolean (key : String) (value : Bool)
  deriving DecidableEq, Repr

/-- A history: the events so far, oldest first. -/
abbrev Trace := List Event

/-- The outside world.  Every answer may depend on the whole history. -/
structure Env where
  /-- Answer of `g_file_test (path, G_FILE_TEST_EXISTS)`. -/
  file_test : Trace → String → Bool
  /-- Answer of `g_find_program_in_path`: `none` is `NULL`. -/
  find_program_in_path : Trace → String → Option String
  /-- Outcome of `g_spawn_command_line_sync`. -/
  spawn_command_line_sync : Trace → String → SpawnResult
  /-- Whether `g_settings_schema_source_lookup` finds the schema. -/
  schema_lookup : Trace → String → Bool
  /-- Whether `g_settings_new_full` returns an object. -/
  settings_new : Trace → Bool
  /-- Answer of `g_settings_get_boolean`. -/
  get_boolean : Trace → String → Bool

/-- What `%s` prints for a `gchar *`: the string, and glibc's `(null)` for `NULL`. -/
def fmt_s : Option String → String
  | some s => s
  | none => "(null)"

namespace Switcher

/-! The program `gooroom-desktop-mode-switcher.c`.

`TABLET_MODE_CHANGE_HELPER` is defined by the build system, not by the sources; it
is the parameter `helper` throughout.  The global `init_tablet_mode` is written
once, in `main`, and is the parameter `init_tablet_mode` of the callbacks.  Dialog
texts are the untranslated message ids with their `%s` argument filled in. -/

/-- Function `show_error_dialog`: nothing for a NULL message, else one modal error dialog. -/
def show_error_dialog (title : String) (message : Option String) : Trace :=
  match message with
  | none => []
  | some m => [Event.error_dialog title m]

/-- The command line `launch_tablet_mode_switching_command (on)` builds once
`g_find_program_in_path ("pkexec")` has answered `pkexec`. -/
def switching_cmdline (pkexec : Option String) (helper : String) (on_ : Bool) : String :=
  if on_ then
    fmt_s pkexec ++ " " ++ helper
  else
    fmt_s pkexec ++ " " ++ helper ++ " -d"

/-- The `g_warning` after a failed spawn: with the `GError` message when there is
one, without it otherwise. -/
def spawn_warning (cmdline : String) (error : Option String) : Event :=
  match error with
  | some msg => Event.warning ("Error attempting to execute command: " ++ cmdline ++ ": " ++ msg)
  | none => Event.warning ("Error attempting to execute command: " ++ cmdline)

/-- Function `launch_tablet_mode_switching_command (on)`, entered with history `h`: the
returned `gboolean` and the events emitted. -/
def launch_tablet_mode_switching_command (env : Env) (helper : String) (on_ : Bool)
    (h : Trace) : Bool × Trace :=
  let e0 : Trace := [Event.call_launch on_]
  let pkexec := env.find_program_in_path (h ++ e0) "pkexec"
  let e1 := e0 ++ [Event.find Site.launch "pkexec" pkexec]
  let cmdline := switching_cmdline pkexec helper on_
  let res := env.spawn_command_line_sync (h ++ e1) cmdline
  let e2 := e1 ++ [Event.spawn Site.launch cmdline res]
  match res with
  | SpawnResult.failed error =>
      (false, e2 ++ [spawn_warning cmdline error, Event.ret_launch on_ false])
  | SpawnResult.exited _ =>
      (true, e2 ++ [Event.ret_launch on_ true])

/-- The first command line of `screen_keyboard_toggled (on)`. -/
def screen_keyboard_cmdline (on_ : Bool) : String :=
  "/usr/bin/gsettings set " ++ DESKTOP_APPLICATION_SCHEMA_NAME ++ " screen-keyboard-enabled "
    ++ (if on_ then "true" else "false")

/-- The second command line of `screen_keyboard_toggled`. -/
def toolkit_accessibility_cmdline : String :=
  "/usr/bin/gsettings set " ++ DESKTOP_INTERFACE_SCHEMA_NAME ++ " toolkit-accessibility true"

/-- Function `screen_keyboard_toggled (on)`, entered with history `h`: the events
emitted.  Both spawns pass NULL for the error and their return value is dropped. -/
def screen_keyboard_toggled (env : Env) (on_ : Bool) (h : Trace) : Trace :=
  let e0 : Trace := [Event.call_toggle on_]
  let cmdline := screen_keyboard_cmdline on_
  let r1 := env.spawn_command_line_sync (h ++ e0) cmdline
  let e1 := e0 ++ [Event.spawn Site.toggle cmdline r1]
  let cmdline := toolkit_accessibility_cmdline
  let r2 := env.spawn_command_line_sync (h ++ e1) cmdline
  e1 ++ [Event.spawn Site.toggle cmdline r2, Event.ret_toggle on_]

/-- Title of the two logout error dialogs. -/
def logout_error_title : String := "System Logout Error"

/-- Message of the dialog shown when the logout command could not be executed. -/
def logout_failed_message : String :=
  "Failed to system logout\nPlease check gooroom-logout or gnome-session-quit program."

/-- Message of the dialog shown when no logout command is on the search path. -/
def logout_not_found_message : String :=
  "Not found logout command.\nInstall gooroom-logout or gnome-session-bin packages."

/-- Title of the dialog shown when the restore invocation fails. -/
def restore_failure_title : String := "Desktop Mode Restore Failure"

/-- Message of the dialog shown when the restore invocation fails. -/
def restore_failure_message (init_tablet_mode : Bool) : String :=
  if init_tablet_mode then
    "Failed to restore Tablet Mode\nPlease create " ++ ETC_GOOROOM_TABLET_MODE
      ++ " manually."
  else
    "Failed to restore Normal(PC) Mode\nPlease delete " ++ ETC_GOOROOM_TABLET_MODE
      ++ " manually."

/-- The code of `logout_idle_cb` from the label `restore:` to its end (it falls
through the label `quit:`), entered with history `h`. -/
def logout_idle_cb_restore (env : Env) (helper : String) (init_tablet_mode : Bool)
    (h : Trace) : Trace :=
  let r := launch_tablet_mode_switching_command env helper init_tablet_mode h
  let e1 :=
    if !r.1 then
      r.2 ++ show_error_dialog restore_failure_title
        (some (restore_failure_message init_tablet_mode))
    else
      r.2
  let e2 := e1 ++ screen_keyboard_toggled env init_tablet_mode (h ++ e1)
  e2 ++ [Event.main_quit]

/-- The first part of `logout_idle_cb`: the choice of the logout command line.
Returns `cmdline` (`none` is NULL) and the events emitted. -/
def logout_cmdline (env : Env) (h : Trace) : Option String × Trace :=
  let logout_command := env.find_program_in_path h "gooroom-logout-command"
  let e0 : Trace := [Event.find Site.logout "gooroom-logout-command" logout_command]
  match logout_command with
  | some p => (some (p ++ " --logout --delay=500"), e0)
  | none =>
      let logout_command := env.find_program_in_path (h ++ e0) "gnome-session-quit"
      let e1 := e0 ++ [Event.find Site.logout "gnome-session-quit" logout_command]
      match logout_command with
      | some p => (some (p ++ " --logout --force --no-prompt"), e1)
      | none => (none, e1)

/-- Function `logout_idle_cb`, entered with history `h`: the returned `gboolean`
(always FALSE, the idle source is removed) and the events emitted. -/
def logout_idle_cb (env : Env) (helper : String) (init_tablet_mode : Bool)
    (h : Trace) : Bool × Trace :=
  let c := logout_cmdline env h
  match c.1 with
  | some cmdline =>
      let res := env.spawn_command_line_sync (h ++ c.2) cmdline
      let e1 := c.2 ++ [Event.spawn Site.logout cmdline res]
      match res with
      | SpawnResult.failed error =>
          let e2 := e1 ++ [spawn_warning cmdline error]
            ++ show_error_dialog logout_error_title (some logout_failed_message)
          (false, e2 ++ logout_idle_cb_restore env helper init_tablet_mode (h ++ e2))
      | SpawnResult.exited _ =>
          (false, e1 ++ [Event.main_quit])
  | none =>
      let e1 := c.2 ++ show_error_dialog logout_error_title (some logout_not_found_message)
      (false, e1 ++ logout_idle_cb_restore env helper init_tablet_mode (h ++ e1))

/-- Title of the confirmation dialog and of the switch-failure dialog. -/
def switching_title : String := "Desktop Mode Switching"

/-- Message of the dialog shown when the switch invocation fails. -/
def switch_failure_message (helper : String) (init_tablet_mode : Bool) : String :=
  if init_tablet_mode then
    "Failed to switch Normal(PC) Mode.\nPlease check " ++ helper ++ " program"
  else
    "Failed to switch Tablet Mode.\nPlease check " ++ helper ++ " program"

/-- Function `desktop_mode_switching_dialog_response_cb`, entered with history `h`:
the events emitted. -/
def desktop_mode_switching_dialog_response_cb (env : Env) (helper : String)
    (init_tablet_mode : Bool) (response_id : Int) (h : Trace) : Trace :=
  let e0 : Trace := [Event.widget_destroy]
  if response_id = GTK_RESPONSE_YES then
    let r := launch_tablet_mode_switching_command env helper (!init_tablet_mode) (h ++ e0)
    let e1 := e0 ++ r.2
    if !r.1 then
      e1 ++ show_error_dialog switching_title
          (some (switch_failure_message helper init_tablet_mode))
        ++ [Event.main_quit]
    else
      let e2 := e1 ++ screen_keyboard_toggled env (!init_tablet_mode) (h ++ e1)
      e2 ++ [Event.idle_add Callback.logout_idle_cb]
  else
    e0 ++ [Event.main_quit]

/-- Message of the confirmation dialog. -/
def confirm_message (init_tablet_mode : Bool) : String :=
  if init_tablet_mode then
    "To switch to normal mode, you must log in again.\nWould you like to log in again now?"
  else
    "To switch to tablet mode, you must log in again.\nWould you like to log in again now?"

/-- Function `desktop_mode_switching_idle`: the returned `gboolean` (FALSE) and the
events emitted; the dialog is shown and its response signal connected. -/
def desktop_mode_switching_idle (init_tablet_mode : Bool) : Bool × Trace :=
  (false, [Event.confirm_dialog switching_title (confirm_message init_tablet_mode)])

/-- The GTK main loop for this program, entered with history `h` and the idle
source `desktop_mode_switching_idle` pending: the idle source is dispatched, the
user answers the dialog with `response_id`, the response callback runs, and an idle
source it has added is dispatched unless `gtk_main_quit` has been called. -/
def gtk_main (env : Env) (helper : String) (init_tablet_mode : Bool) (response_id : Int)
    (h : Trace) : Trace :=
  let e0 := (desktop_mode_switching_idle init_tablet_mode).2 ++ [Event.response response_id]
  let e1 := e0 ++ desktop_mode_switching_dialog_response_cb env helper init_tablet_mode
    response_id (h ++ e0)
  if Event.main_quit ∈ e1 then
    e1
  else if Event.idle_add Callback.logout_idle_cb ∈ e1 then
    e1 ++ (logout_idle_cb env helper init_tablet_mode (h ++ e1)).2
  else
    e1

/-- Function `main` of the mode switcher: the exit code and the events of the run
in which the user answers the dialog with `response_id`.  The locale setup and
`gtk_init` have no part in the flow and are left out. -/
def main (env : Env) (helper : String) (response_id : Int) : Int × Trace :=
  let init_tablet_mode := env.file_test [] ETC_GOOROOM_TABLET_MODE
  let e0 : Trace := [Event.file_test ETC_GOOROOM_TABLET_MODE init_tablet_mode,
    Event.idle_add Callback.desktop_mode_switching_idle]
  (0, e0 ++ gtk_main env helper init_tablet_mode response_id e0)

end Switcher

namespace Toggler

/-! The program `gooroom-screen-keyboard-toggler.c`. -/

/-- The first command line of the toggler: the key is set to the negation of the
value `screen_keyboard_enabled` just read. -/
def screen_keyboard_cmdline (screen_keyboard_enabled : Bool) : String :=
  "/usr/bin/gsettings set " ++ DESKTOP_APPLICATION_SCHEMA_NAME ++ " screen-keyboard-enabled "
    ++ (if screen_keyboard_enabled then "false" else "true")

/-- The second command line of the toggler. -/
def toolkit_accessibility_cmdline : String :=
  "/usr/bin/gsettings set " ++ DESKTOP_INTERFACE_SCHEMA_NAME ++ " toolkit-accessibility true"

/-- Function `main` of the screen-keyboard toggler: the exit code and the events.
The locale setup and `gtk_init` are left out. -/
def main (env : Env) : Int × Trace :=
  let tablet := env.file_test [] ETC_GOOROOM_TABLET_MODE
  let e0 : Trace := [Event.file_test ETC_GOOROOM_TABLET_MODE tablet]
  if !tablet then
    (0, e0 ++ [Event.syslog "gooroom-screen-keyboard-toggler: No Tablet Mode"])
  else
    let schema := env.schema_lookup e0 DESKTOP_APPLICATION_SCHEMA_NAME
    let e1 := e0 ++ [Event.schema_lookup DESKTOP_APPLICATION_SCHEMA_NAME schema]
    let settings := if schema then env.settings_new e1 else false
    let e2 :=
      if schema then
        e1 ++ [Event.settings_new settings]
      else
        e1 ++ [Event.syslog "gooroom-screen-keyboard-toggler: Couldn't get schema: 'org.gnome.desktop.a11y.applications'"]
    if settings then
      let screen_keyboard_enabled := env.get_boolean e2 "screen-keyboard-enabled"
      let e3 := e2 ++ [Event.get_boolean "screen-keyboard-enabled" screen_keyboard_enabled]
      let cmd := screen_keyboard_cmdline screen_keyboard_enabled
      let r1 := env.spawn_command_line_sync e3 cmd
      let e4 := e3 ++ [Event.spawn Site.toggler cmd r1]
      let cmd := toolkit_accessibility_cmdline
      let r2 := env.spawn_command_line_sync e4 cmd
      (0, e4 ++ [Event.spawn Site.toggler cmd r2])
    else
      (0, e2 ++ [Event.syslog "gooroom-screen-keyboard-toggler: Couldn't create gsettings from schema: org.gnome.desktop.a11y.applications"])

end Toggler

/-! Observations on traces. -/

/-- The steps of the flow: calls and returns of the two helper functions, the
logout spawn, error dialogs, `g_idle_add` and `gtk_main_quit`. -/
def Event.is_step : Event → Bool
  | Event.call_launch _ => true
  | Event.ret_launch _ _ => true
  | Event.call_toggle _ => true
  | Event.ret_toggle _ => true
  | Event.spawn Site.logout _ _ => true
  | Event.error_dialog _ _ => true
  | Event.idle_add _ => true
  | Event.main_quit => true
  | _ => false

/-- The steps of a trace, in order. -/
def steps (tr : Trace) : Trace := tr.filter Event.is_step

/-- The command lines spawned from `site`, in order. -/
def spawned_at (site : Site) (tr : Trace) : List String :=
  tr.filterMap fun e =>
    match e with
    | Event.spawn s cmdline _ => if s = site then some cmdline else none
    | _ => none

/-- The programs searched for on the search path from `site`, in order. -/
def searched_at (site : Site) (tr : Trace) : List String :=
  tr.filterMap fun e =>
    match e with
    | Event.find s program _ => if s = site then some program else none
    | _ => none

/-- All command lines spawned, in order. -/
def spawned (tr : Trace) : List String :=
  tr.filterMap fun e =>
    match e with
    | Event.spawn _ cmdline _ => some cmdline
    | _ => none

/-- A logout command line that could not be executed. -/
def Event.is_failed_logout : Event → Bool
  | Event.spawn Site.logout _ (SpawnResult.failed _) => true
  | _ => false

/-- A logout command line that ran to completion. -/
def Event.is_done_logout : Event → Bool
  | Event.spawn Site.logout _ (SpawnResult.exited _) => true
  | _ => false

/-- Whether a logout command line was spawned and could not be executed. -/
def logout_spawn_failed (tr : Trace) : Bool := tr.any Event.is_failed_logout

/-- Whether a logout command line was spawned and ran to completion. -/
def logout_spawn_done (tr : Trace) : Bool := tr.any Event.is_done_logout

/-- Whether neither logout tool was found on the search path. -/
def logout_not_found (tr : Trace) : Bool :=
  decide (Event.find Site.logout "gooroom-logout-command" none ∈ tr) &&
    decide (Event.find Site.logout "gnome-session-quit" none ∈ tr)

/-! A sample world for evaluating the programs: a fixed search path, a fixed
sentinel state, and spawn outcomes given in the order of the spawns. -/

/-- The number of spawns in a history. -/
def spawn_count (h : Trace) : Nat := (spawned h).length

/-- A world in which the programs on the search path are those of `path`, the
sentinel file exists when `tablet`, the `k`-th spawn has outcome `outcomes[k]` (and
exits with status 0 past the end of the list), the schema and settings object are
available when `gsettings`, and the screen keyboard key reads `enabled`. -/
def sample_env (path : List (String × String)) (tablet : Bool) (outcomes : List SpawnResult)
    (gsettings : Bool) (enabled : Bool) : Env where
  file_test := fun _ _ => tablet
  find_program_in_path := fun _ name => path.lookup name
  spawn_command_line_sync := fun h _ => outcomes.getD (spawn_count h) (SpawnResult.exited 0)
  schema_lookup := fun _ _ => gsettings
  settings_new := fun _ => gsettings
  get_boolean := fun _ _ => enabled

/-! The traces of the mode switcher as functions of the answers of the world.
These are used to reason by cases on the answers; the statements below are about
the functions embedded from the sources. -/

namespace Switcher

/-- The events of `launch_tablet_mode_switching_command (on)` when the search for
`pkexec` answers `pk` and the spawn has outcome `res`. -/
def launch_events (helper : String) (on_ : Bool) (pk : Option String) (res : SpawnResult) :
    Trace :=
  [Event.call_launch on_, Event.find Site.launch "pkexec" pk,
    Event.spawn Site.launch (switching_cmdline pk helper on_) res]
  ++ (match res with
      | SpawnResult.failed error => [spawn_warning (switching_cmdline pk helper on_) error]
      | SpawnResult.exited _ => [])
  ++ [Event.ret_launch on_ res.ret]

/-- The events of `screen_keyboard_toggled (on)` when its spawns have outcomes
`r1` and `r2`. -/
def toggle_events (on_ : Bool) (r1 r2 : SpawnResult) : Trace :=
  [Event.call_toggle on_, Event.spawn Site.toggle (screen_keyboard_cmdline on_) r1,
    Event.spawn Site.toggle toolkit_accessibility_cmdline r2, Event.ret_toggle on_]

/-- The events of the restore step for the given answers. -/
def restore_events (helper : String) (m : Bool) (pk : Option String) (res r1 r2 : SpawnResult) :
    Trace :=
  launch_events helper m pk res
  ++ (if res.ret then [] else [Event.error_dialog restore_failure_title (restore_failure_message m)])
  ++ toggle_events m r1 r2 ++ [Event.main_quit]

/-- The logout command line chosen when the two searches answer `lo1` and `lo2`. -/
def logout_choice (lo1 lo2 : Option String) : Option String :=
  match lo1 with
  | some p => some (p ++ " --logout --delay=500")
  | none =>
      match lo2 with
      | some p => some (p ++ " --logout --force --no-prompt")
      | none => none

/-- The search events of `logout_idle_cb` when the searches answer `lo1` and `lo2`. -/
def logout_find_events (lo1 lo2 : Option String) : Trace :=
  match lo1 with
  | some p => [Event.find Site.logout "gooroom-logout-command" (some p)]
  | none => [Event.find Site.logout "gooroom-logout-command" none,
      Event.find Site.logout "gnome-session-quit" lo2]

/-- The events of `logout_idle_cb` for the given answers. -/
def logout_events (helper : String) (m : Bool) (lo1 lo2 : Option String) (ls : SpawnResult)
    (pk : Option String) (res r1 r2 : SpawnResult) : Trace :=
  match logout_choice lo1 lo2 with
  | some cmdline =>
      match ls with
      | SpawnResult.failed error =>
          logout_find_events lo1 lo2
          ++ [Event.spawn Site.logout cmdline ls, spawn_warning cmdline error,
            Event.error_dialog logout_error_title logout_failed_message]
          ++ restore_events helper m pk res r1 r2
      | SpawnResult.exited _ =>
          logout_find_events lo1 lo2 ++ [Event.spawn Site.logout cmdline ls, Event.main_quit]
  | none =>
      logout_find_events lo1 lo2
      ++ [Event.error_dialog logout_error_title logout_not_found_message]
      ++ restore_events helper m pk res r1 r2

/-- The answers of the world during one run of the flow, in the order asked. -/
structure Answers where
  /-- Search for `pkexec` in the switch invocation. -/
  pkexec : Option String
  /-- Spawn of the switch invocation. -/
  switch : SpawnResult
  /-- First spawn of the settings toggle after the switch. -/
  kbd : SpawnResult
  /-- Second spawn of the settings toggle after the switch. -/
  acc : SpawnResult
  /-- Search for `gooroom-logout-command`. -/
  logout1 : Option String
  /-- Search for `gnome-session-quit`. -/
  logout2 : Option String
  /-- Spawn of the logout command. -/
  logout : SpawnResult
  /-- Search for `pkexec` in the restore invocation. -/
  pkexec_restore : Option String
  /-- Spawn of the restore invocation. -/
  restore : SpawnResult
  /-- First spawn of the settings toggle of the restore step. -/
  kbd_restore : SpawnResult
  /-- Second spawn of the settings toggle of the restore step. -/
  acc_restore : SpawnResult

/-- The events of `gtk_main` after the user has confirmed, for the given answers. -/
def flow_events (helper : String) (m : Bool) (a : Answers) : Trace :=
  [Event.confirm_dialog switching_title (confirm_message m), Event.response GTK_RESPONSE_YES,
    Event.widget_destroy]
  ++ launch_events helper (!m) a.pkexec a.switch
  ++ (if a.switch.ret then
        toggle_events (!m) a.kbd a.acc ++ [Event.idle_add Callback.logout_idle_cb]
        ++ logout_events helper m a.logout1 a.logout2 a.logout a.pkexec_restore a.restore
            a.kbd_restore a.acc_restore
      else
        [Event.error_dialog switching_title (switch_failure_message helper m), Event.main_quit])

/-- The steps of the restore step when the restore invocation returns `r`. -/
def restore_steps (m r : Bool) : Trace :=
  [Event.call_launch m, Event.ret_launch m r]
  ++ (if r then [] else [Event.error_dialog restore_failure_title (restore_failure_message m)])
  ++ [Event.call_toggle m, Event.ret_toggle m, Event.main_quit]

end Switcher

/-! Sample inputs. -/

/-- A search path holding the elevation tool and both logout tools. -/
def sample_path : List (String × String) :=
  [("pkexec", "/usr/bin/pkexec"),
    ("gooroom-logout-command", "/usr/bin/gooroom-logout-command"),
    ("gnome-session-quit", "/usr/bin/gnome-session-quit")]

/-- A search path holding the elevation tool only. -/
def sample_path_no_logout : List (String × String) := [("pkexec", "/usr/bin/pkexec")]

/-- A value for `TABLET_MODE_CHANGE_HELPER`. -/
def sample_helper : String := "/usr/sbin/tablet-helper"

/-- Desktop mode; the helper run by `pkexec` exits with status 1. -/
def world_helper_exits_one : Env :=
  sample_env sample_path false [SpawnResult.exited 1] true false

/-- Tablet mode; the switch invocation cannot be spawned. -/
def world_switch_fails : Env :=
  sample_env sample_path true [SpawnResult.failed (some "Failed to execute child process")]
    true false

/-- Tablet mode; no logout tool is installed and the restore invocation fails. -/
def world_no_logout : Env :=
  sample_env sample_path_no_logout true
    [SpawnResult.exited 0, SpawnResult.exited 0, SpawnResult.exited 0, SpawnResult.failed none]
    true false

/-- Desktop mode; every command runs and exits with status 0. -/
def world_all_good : Env := sample_env sample_path false [] true false

/-- Tablet mode; the schema and the settings object are available, the screen
keyboard key reads `true`, and the first `gsettings` command cannot be spawned. -/
def world_tablet_keyboard_on : Env :=
  sample_env sample_path true [SpawnResult.failed none] true true

/-! Properties. -/

namespace Switcher

theorem launch_spec (env : Env) (helper : String) (on_ : Bool) (h : Trace) :
    ∃ pk res, launch_tablet_mode_switching_command env helper on_ h
      = (res.ret, launch_events helper on_ pk res) := by
  simp only [launch_tablet_mode_switching_command]
  generalize env.find_program_in_path _ _ = pk
  generalize env.spawn_command_line_sync _ _ = res
  exact ⟨pk, res, by cases res <;> rfl⟩

theorem toggle_spec (env : Env) (on_ : Bool) (h : Trace) :
    ∃ r1 r2, screen_keyboard_toggled env on_ h = toggle_events on_ r1 r2 :=
  ⟨_, _, rfl⟩

theorem restore_spec (env : Env) (helper : String) (m : Bool) (h : Trace) :
    ∃ pk res r1 r2, logout_idle_cb_restore env helper m h
      = restore_events helper m pk res r1 r2 := by
  simp only [logout_idle_cb_restore]
  generalize hL : launch_tablet_mode_switching_command env helper m h = L
  obtain ⟨pk, res, rfl⟩ : ∃ pk res, L = (res.ret, launch_events helper m pk res) :=
    hL ▸ launch_spec env helper m h
  generalize hT : screen_keyboard_toggled env m _ = T
  obtain ⟨r1, r2, rfl⟩ : ∃ r1 r2, T = toggle_events m r1 r2 := hT ▸ toggle_spec env m _
  refine ⟨pk, res, r1, r2, ?_⟩
  cases res <;> simp [restore_events, show_error_dialog, SpawnResult.ret]

theorem logout_spec (env : Env) (helper : String) (m : Bool) (h : Trace) :
    ∃ lo1 lo2 ls pk res r1 r2, logout_idle_cb env helper m h
      = (false, logout_events helper m lo1 lo2 ls pk res r1 r2) := by
  simp only [logout_idle_cb, logout_cmdline]
  generalize env.find_program_in_path h _ = lo1
  cases lo1 with
  | some p =>
    simp only []
    generalize env.spawn_command_line_sync _ _ = ls
    cases ls with
    | failed error =>
      simp only []
      generalize hR : logout_idle_cb_restore env helper m _ = R
      obtain ⟨pk, res, r1, r2, rfl⟩ : ∃ pk res r1 r2, R = restore_events helper m pk res r1 r2 :=
        hR ▸ restore_spec env helper m _
      exact ⟨some p, none, SpawnResult.failed error, pk, res, r1, r2, by
        simp [logout_events, logout_choice, logout_find_events, show_error_dialog]⟩
    | exited st =>
      exact ⟨some p, none, SpawnResult.exited st, none, SpawnResult.exited 0,
        SpawnResult.exited 0, SpawnResult.exited 0, by
        simp [logout_events, logout_choice, logout_find_events]⟩
  | none =>
    simp only []
    generalize env.find_program_in_path _ _ = lo2
    cases lo2 with
    | some p =>
      simp only []
      generalize env.spawn_command_line_sync _ _ = ls
      cases ls with
      | failed error =>
        simp only []
        generalize hR : logout_idle_cb_restore env helper m _ = R
        obtain ⟨pk, res, r1, r2, rfl⟩ : ∃ pk res r1 r2, R = restore_events helper m pk res r1 r2 :=
          hR ▸ restore_spec env helper m _
        exact ⟨none, some p, SpawnResult.failed error, pk, res, r1, r2, by
          simp [logout_events, logout_choice, logout_find_events, show_error_dialog]⟩
      | exited st =>
        exact ⟨none, some p, SpawnResult.exited st, none, SpawnResult.exited 0,
          SpawnResult.exited 0, SpawnResult.exited 0, by
          simp [logout_events, logout_choice, logout_find_events]⟩
    | none =>
      simp only []
      generalize hR : logout_idle_cb_restore env helper m _ = R
      obtain ⟨pk, res, r1, r2, rfl⟩ : ∃ pk res r1 r2, R = restore_events helper m pk res r1 r2 :=
        hR ▸ restore_spec env helper m _
      exact ⟨none, none, SpawnResult.exited 0, pk, res, r1, r2, by
        simp [logout_events, logout_choice, logout_find_events, show_error_dialog]⟩

theorem response_cb_yes_spec (env : Env) (helper : String) (m : Bool) (h : Trace) :
    ∃ pk sw r1 r2, desktop_mode_switching_dialog_response_cb env helper m GTK_RESPONSE_YES h
      = [Event.widget_destroy] ++ launch_events helper (!m) pk sw
        ++ (if sw.ret then
              toggle_events (!m) r1 r2 ++ [Event.idle_add Callback.logout_idle_cb]
            else
              [Event.error_dialog switching_title (switch_failure_message helper m),
                Event.main_quit]) := by
  simp only [desktop_mode_switching_dialog_response_cb, if_true]
  generalize hL : launch_tablet_mode_switching_command env helper (!m) _ = L
  obtain ⟨pk, sw, rfl⟩ : ∃ pk sw, L = (sw.ret, launch_events helper (!m) pk sw) :=
    hL ▸ launch_spec env helper (!m) _
  generalize hT : screen_keyboard_toggled env (!m) _ = T
  obtain ⟨r1, r2, rfl⟩ : ∃ r1 r2, T = toggle_events (!m) r1 r2 := hT ▸ toggle_spec env (!m) _
  refine ⟨pk, sw, r1, r2, ?_⟩
  cases sw <;> simp [show_error_dialog, SpawnResult.ret]

theorem gtk_main_yes_spec (env : Env) (helper : String) (m : Bool) (h : Trace) :
    ∃ a : Answers, gtk_main env helper m GTK_RESPONSE_YES h = flow_events helper m a := by
  simp only [gtk_main, desktop_mode_switching_idle]
  generalize hC : desktop_mode_switching_dialog_response_cb env helper m GTK_RESPONSE_YES _ = C
  obtain ⟨pk, sw, r1, r2, rfl⟩ := hC ▸ response_cb_yes_spec env helper m _
  cases sw with
  | failed error =>
    refine ⟨⟨pk, SpawnResult.failed error, r1, r2, none, none, SpawnResult.exited 0, none,
      SpawnResult.exited 0, SpawnResult.exited 0, SpawnResult.exited 0⟩, ?_⟩
    simp [flow_events, launch_events, SpawnResult.ret]
  | exited st =>
    generalize hO : logout_idle_cb env helper m _ = O
    obtain ⟨lo1, lo2, ls, pk2, res, k2, a2, rfl⟩ := hO ▸ logout_spec env helper m _
    refine ⟨⟨pk, SpawnResult.exited st, r1, r2, lo1, lo2, ls, pk2, res, k2, a2⟩, ?_⟩
    simp [flow_events, launch_events, toggle_events, SpawnResult.ret]

/-! The steps of the answer-indexed traces. -/

theorem steps_append (a b : Trace) : steps (a ++ b) = steps a ++ steps b := by
  simp [steps]

theorem steps_nil : steps [] = [] := rfl

theorem steps_cons (e : Event) (t : Trace) :
    steps (e :: t) = if e.is_step then e :: steps t else steps t := by
  simp only [steps, List.filter_cons]

theorem mem_steps (e : Event) (tr : Trace) : e ∈ steps tr ↔ e ∈ tr ∧ e.is_step = true := by
  simp [steps]

theorem steps_launch_events (helper : String) (on_ : Bool) (pk : Option String)
    (res : SpawnResult) :
    steps (launch_events helper on_ pk res)
      = [Event.call_launch on_, Event.ret_launch on_ res.ret] := by
  cases res with
  | failed error =>
    cases error <;> simp [steps_cons, steps_nil, launch_events, spawn_warning, Event.is_step]
  | exited st => simp [steps_cons, steps_nil, launch_events, Event.is_step]

theorem steps_toggle_events (on_ : Bool) (r1 r2 : SpawnResult) :
    steps (toggle_events on_ r1 r2) = [Event.call_toggle on_, Event.ret_toggle on_] := by
  simp [steps_cons, steps_nil, toggle_events, Event.is_step]

theorem steps_restore_events (helper : String) (m : Bool) (pk : Option String)
    (res r1 r2 : SpawnResult) :
    steps (restore_events helper m pk res r1 r2) = restore_steps m res.ret := by
  simp only [restore_events, steps_append, steps_launch_events, steps_toggle_events,
    restore_steps]
  cases res.ret <;> simp [steps_cons, steps_nil, Event.is_step]

theorem steps_logout_events (helper : String) (m : Bool) (lo1 lo2 : Option String)
    (ls : SpawnResult) (pk : Option String) (res r1 r2 : SpawnResult) :
    steps (logout_events helper m lo1 lo2 ls pk res r1 r2)
      = match logout_choice lo1 lo2 with
        | some cmdline =>
            match ls with
            | SpawnResult.failed _ =>
                [Event.spawn Site.logout cmdline ls,
                  Event.error_dialog logout_error_title logout_failed_message]
                ++ restore_steps m res.ret
            | SpawnResult.exited _ => [Event.spawn Site.logout cmdline ls, Event.main_quit]
        | none =>
            [Event.error_dialog logout_error_title logout_not_found_message]
            ++ restore_steps m res.ret := by
  have hf : steps (logout_find_events lo1 lo2) = [] := by
    cases lo1 <;> simp [steps_cons, steps_nil, logout_find_events, Event.is_step]
  simp only [logout_events]
  cases logout_choice lo1 lo2 with
  | none => simp [steps_append, hf, steps_restore_events, steps_cons, steps_nil, Event.is_step]
  | some c =>
    cases ls with
    | failed error =>
      cases error <;>
        simp [steps_append, hf, steps_restore_events, steps_cons, steps_nil, Event.is_step,
          spawn_warning]
    | exited st => simp [steps_append, hf, steps_cons, steps_nil, Event.is_step]

theorem steps_flow_events (helper : String) (m : Bool) (a : Answers) :
    steps (flow_events helper m a)
      = [Event.call_launch (!m), Event.ret_launch (!m) a.switch.ret]
        ++ (if a.switch.ret then
              [Event.call_toggle (!m), Event.ret_toggle (!m),
                Event.idle_add Callback.logout_idle_cb]
              ++ steps (logout_events helper m a.logout1 a.logout2 a.logout a.pkexec_restore
                  a.restore a.kbd_restore a.acc_restore)
            else
              [Event.error_dialog switching_title (switch_failure_message helper m),
                Event.main_quit]) := by
  simp only [flow_events, steps_append, steps_launch_events]
  cases a.switch.ret <;>
    simp [steps_cons, steps_nil, steps_append, steps_toggle_events, Event.is_step]

theorem any_steps (p : Event → Bool) (hp : ∀ e, p e = true → e.is_step = true) (tr : Trace) :
    tr.any p = (steps tr).any p := by
  induction tr with
  | nil => rfl
  | cons e t ih =>
    rw [steps_cons]
    cases hs : e.is_step with
    | true => simp [ih]
    | false =>
      have : p e = false := by
        cases hpe : p e with
        | false => rfl
        | true => rw [hp e hpe] at hs; cases hs
      simp [ih, this]

theorem logout_spawn_failed_steps (tr : Trace) :
    logout_spawn_failed tr = logout_spawn_failed (steps tr) := by
  apply any_steps
  intro e he
  cases e <;> first | rfl | (simp [Event.is_failed_logout, Event.is_done_logout] at he)
  rename_i s c r
  cases s <;> cases r <;> first | rfl | (simp [Event.is_failed_logout] at he)

theorem logout_spawn_done_steps (tr : Trace) :
    logout_spawn_done tr = logout_spawn_done (steps tr) := by
  apply any_steps
  intro e he
  cases e <;> first | rfl | (simp [Event.is_failed_logout, Event.is_done_logout] at he)
  rename_i s c r
  cases s <;> cases r <;> first | rfl | (simp [Event.is_done_logout] at he)

theorem logout_not_found_flow (helper : String) (m : Bool) (a : Answers)
    (hn : logout_not_found (flow_events helper m a) = true) :
    a.switch.ret = true ∧ logout_choice a.logout1 a.logout2 = none := by
  rcases a with ⟨pk, sw, k1, a1, l1, l2, ls, pk2, rs, k2, a2⟩
  simp only [logout_not_found, Bool.and_eq_true, decide_eq_true_eq] at hn
  obtain ⟨h1, h2⟩ := hn
  cases sw with
  | failed error =>
    exfalso
    cases error <;> simp [flow_events, launch_events, SpawnResult.ret, spawn_warning] at h1
  | exited st =>
    refine ⟨rfl, ?_⟩
    cases l1 with
    | some p =>
      exfalso
      cases ls with
      | exited s2 =>
        simp [flow_events, launch_events, SpawnResult.ret, toggle_events, logout_events,
          logout_choice, logout_find_events] at h1
      | failed error =>
        cases rs with
        | exited s3 =>
          cases error <;>
          simp [flow_events, launch_events, SpawnResult.ret, toggle_events, logout_events,
            logout_choice, logout_find_events, restore_events, spawn_warning] at h1
        | failed e3 =>
          cases error <;> cases e3 <;>
          simp [flow_events, launch_events, SpawnResult.ret, toggle_events, logout_events,
            logout_choice, logout_find_events, restore_events, spawn_warning] at h1
    | none =>
      cases l2 with
      | none => rfl
      | some q =>
        exfalso
        cases ls with
        | exited s2 =>
          simp [flow_events, launch_events, SpawnResult.ret, toggle_events, logout_events,
            logout_choice, logout_find_events] at h2
        | failed error =>
          cases rs with
          | exited s3 =>
            cases error <;>
            simp [flow_events, launch_events, SpawnResult.ret, toggle_events, logout_events,
              logout_choice, logout_find_events, restore_events, spawn_warning] at h2
          | failed e3 =>
            cases error <;> cases e3 <;>
            simp [flow_events, launch_events, SpawnResult.ret, toggle_events, logout_events,
              logout_choice, logout_find_events, restore_events, spawn_warning] at h2

/-! Claims about `launch_tablet_mode_switching_command`. -/

/-- C1 (as amended): `launch_tablet_mode_switching_command` searches for `pkexec`,
spawns exactly one command line, and returns success if and only if that spawn
reported no error, whatever exit status the helper ended with; neither the exit
status nor the result of the search is examined. -/
theorem launch_success_iff_spawn_succeeded (env : Env) (helper : String) (on_ : Bool)
    (h : Trace) :
    ∃ pk res,
      Event.find Site.launch "pkexec" pk
          ∈ (launch_tablet_mode_switching_command env helper on_ h).2
      ∧ Event.spawn Site.launch (switching_cmdline pk helper on_) res
          ∈ (launch_tablet_mode_switching_command env helper on_ h).2
      ∧ spawned (launch_tablet_mode_switching_command env helper on_ h).2
          = [switching_cmdline pk helper on_]
      ∧ ((launch_tablet_mode_switching_command env helper on_ h).1 = true
          ↔ ∃ status, res = SpawnResult.exited status)
      ∧ ((launch_tablet_mode_switching_command env helper on_ h).1 = false
          ↔ ∃ error, res = SpawnResult.failed error) := by
  obtain ⟨pk, res, hl⟩ := launch_spec env helper on_ h
  refine ⟨pk, res, ?_⟩
  rw [hl]
  cases res with
  | failed error => cases error <;> simp [launch_events, spawned, spawn_warning, SpawnResult.ret]
  | exited st => simp [launch_events, spawned, SpawnResult.ret]

/-- C1 (counterexample): with `pkexec` found and the helper exiting with status 1,
`launch_tablet_mode_switching_command` returns success. -/
theorem launch_success_despite_exit_status_one :
    launch_tablet_mode_switching_command world_helper_exits_one sample_helper true []
      = (true,
          [Event.call_launch true,
            Event.find Site.launch "pkexec" (some "/usr/bin/pkexec"),
            Event.spawn Site.launch "/usr/bin/pkexec /usr/sbin/tablet-helper"
              (SpawnResult.exited 1),
            Event.ret_launch true true]) := by
  decide

theorem append_dash_d_ne (b : String) : b ≠ b ++ " -d" := by
  intro hb
  have hl := congrArg String.length hb
  rw [String.length_append] at hl
  have : (" -d" : String).length = 3 := by decide
  omega

/-- C5: with `pkexec` found at `p`, the command line is `p <helper>` to enable
tablet mode and `p <helper> -d` to switch to desktop mode; every call spawns
exactly the command line so built; the flag is present exactly when `on` is false;
after confirmation the first invocation is built for the negated initial mode (so
it carries `-d` exactly when the initial mode was tablet) and a restore invocation,
when there is one, is built for the initial mode (so it carries `-d` exactly when
the initial mode was desktop). -/
theorem switching_cmdline_flag (env : Env) (helper : String) (m : Bool) (h : Trace) :
    (∀ p, switching_cmdline (some p) helper true = p ++ " " ++ helper
        ∧ switching_cmdline (some p) helper false = p ++ " " ++ helper ++ " -d")
    ∧ (∀ on_, ∃ pk,
        Event.find Site.launch "pkexec" pk
            ∈ (launch_tablet_mode_switching_command env helper on_ h).2
        ∧ spawned (launch_tablet_mode_switching_command env helper on_ h).2
            = [switching_cmdline pk helper on_])
    ∧ (∀ pk on_,
        switching_cmdline pk helper on_ = fmt_s pk ++ " " ++ helper ++ " -d" ↔ on_ = false)
    ∧ (∃ pk rest,
        spawned_at Site.launch (gtk_main env helper m GTK_RESPONSE_YES h)
            = switching_cmdline pk helper (!m) :: rest
        ∧ (rest = [] ∨ ∃ pk2, rest = [switching_cmdline pk2 helper m])) := by
  refine ⟨fun p => ⟨rfl, rfl⟩, ?_, ?_, ?_⟩
  · intro on_
    obtain ⟨pk, res, hl⟩ := launch_spec env helper on_ h
    refine ⟨pk, ?_⟩
    rw [hl]
    cases res with
    | failed error => cases error <;> simp [launch_events, spawned, spawn_warning]
    | exited st => simp [launch_events, spawned]
  · intro pk on_
    cases on_ with
    | false => simp [switching_cmdline]
    | true =>
      simp only [switching_cmdline, if_true]
      constructor
      · intro hb
        exact absurd hb (append_dash_d_ne _)
      · intro hb
        cases hb
  · obtain ⟨a, ha⟩ := gtk_main_yes_spec env helper m h
    rw [ha]
    rcases a with ⟨pk, sw, k1, a1, l1, l2, ls, pk2, rs, k2, a2⟩
    refine ⟨pk, ?_⟩
    cases sw with
    | failed error =>
      refine ⟨[], ?_, Or.inl rfl⟩
      cases error <;> simp [flow_events, launch_events, spawned_at, spawn_warning, SpawnResult.ret]
    | exited st =>
      have hfind : spawned_at Site.launch (logout_find_events l1 l2) = [] := by
        cases l1 <;> simp [logout_find_events, spawned_at]
      have hrest : spawned_at Site.launch (restore_events helper m pk2 rs k2 a2)
          = [switching_cmdline pk2 helper m] := by
        cases rs with
        | failed error =>
          cases error <;>
            simp [restore_events, launch_events, toggle_events, spawned_at, spawn_warning,
              SpawnResult.ret]
        | exited s3 =>
          simp [restore_events, launch_events, toggle_events, spawned_at, SpawnResult.ret]
      have happ : ∀ x y : Trace,
          spawned_at Site.launch (x ++ y) = spawned_at Site.launch x ++ spawned_at Site.launch y := by
        intro x y
        simp [spawned_at]
      cases hc : logout_choice l1 l2 with
      | none =>
        refine ⟨[switching_cmdline pk2 helper m], ?_, Or.inr ⟨pk2, rfl⟩⟩
        simp only [flow_events, SpawnResult.ret, if_true, logout_events, hc, happ, hfind, hrest]
        simp [launch_events, toggle_events, spawned_at]
      | some c =>
        cases ls with
        | exited s2 =>
          refine ⟨[], ?_, Or.inl rfl⟩
          simp only [flow_events, SpawnResult.ret, if_true, logout_events, hc, happ, hfind]
          simp [launch_events, toggle_events, spawned_at]
        | failed error =>
          refine ⟨[switching_cmdline pk2 helper m], ?_, Or.inr ⟨pk2, rfl⟩⟩
          simp only [flow_events, SpawnResult.ret, if_true, logout_events, hc, happ, hfind,
            hrest]
          cases error <;> simp [launch_events, toggle_events, spawned_at, spawn_warning]

/-! Claims about the flow. -/

/-- C2: when the user confirms, the switch invocation succeeds and the logout step
fails (no logout command found, or the spawn of the one found fails), the steps of
the flow are: the switch call with the negated mode, the settings toggle with the
negated mode, the scheduling of the logout attempt, the failed logout spawn (when a
command was found), the logout error dialog, then exactly one more call of
`launch_tablet_mode_switching_command`, with the initial mode `m`, the restore
failure dialog when that call returns failure, exactly one call of
`screen_keyboard_toggled` with `m`, and `gtk_main_quit` last. -/
theorem restore_after_logout_failure (env : Env) (helper : String) (m : Bool) (h : Trace)
    (hsw : Event.ret_launch (!m) true ∈ gtk_main env helper m GTK_RESPONSE_YES h)
    (hlo : logout_not_found (gtk_main env helper m GTK_RESPONSE_YES h) = true
      ∨ logout_spawn_failed (gtk_main env helper m GTK_RESPONSE_YES h) = true) :
    ∃ lsp msg r,
      (lsp = [] ∨ ∃ cmdline error, lsp = [Event.spawn Site.logout cmdline
        (SpawnResult.failed error)])
      ∧ steps (gtk_main env helper m GTK_RESPONSE_YES h)
        = [Event.call_launch (!m), Event.ret_launch (!m) true,
            Event.call_toggle (!m), Event.ret_toggle (!m),
            Event.idle_add Callback.logout_idle_cb]
          ++ lsp
          ++ [Event.error_dialog logout_error_title msg,
            Event.call_launch m, Event.ret_launch m r]
          ++ (if r then []
              else [Event.error_dialog restore_failure_title (restore_failure_message m)])
          ++ [Event.call_toggle m, Event.ret_toggle m, Event.main_quit]
      ∧ (gtk_main env helper m GTK_RESPONSE_YES h).getLast? = some Event.main_quit := by
  obtain ⟨a, ha⟩ := gtk_main_yes_spec env helper m h
  rw [ha] at hsw hlo ⊢
  have hlast : ∀ pk res r1 r2 (x : Trace),
      (x ++ restore_events helper m pk res r1 r2).getLast? = some Event.main_quit := by
    intro pk res r1 r2 x
    simp [restore_events]
  rcases hlo with hnf | hsf
  · obtain ⟨hret, hc⟩ := logout_not_found_flow helper m a hnf
    refine ⟨[], logout_not_found_message, a.restore.ret, Or.inl rfl, ?_, ?_⟩
    · rw [steps_flow_events, steps_logout_events, hret, hc]
      simp [restore_steps]
    · simp only [flow_events, hret, if_true, logout_events, hc]
      simp only [← List.append_assoc]
      exact hlast _ _ _ _ _
  · rw [logout_spawn_failed_steps, steps_flow_events, steps_logout_events] at hsf
    rw [steps_flow_events, steps_logout_events]
    rcases a with ⟨pk, sw, k1, a1, l1, l2, ls, pk2, rs, k2, a2⟩
    cases sw with
    | failed error =>
      exfalso
      simp [SpawnResult.ret, logout_spawn_failed, Event.is_failed_logout] at hsf
    | exited st =>
      cases hc : logout_choice l1 l2 with
      | none =>
        exfalso
        rw [hc] at hsf
        cases rs <;>
          simp [SpawnResult.ret, logout_spawn_failed, Event.is_failed_logout, restore_steps]
            at hsf
      | some c =>
        cases ls with
        | exited s2 =>
          exfalso
          rw [hc] at hsf
          simp [SpawnResult.ret, logout_spawn_failed, Event.is_failed_logout] at hsf
        | failed error =>
          refine ⟨[Event.spawn Site.logout c (SpawnResult.failed error)], logout_failed_message,
            rs.ret, Or.inr ⟨c, error, rfl⟩, ?_, ?_⟩
          · simp [SpawnResult.ret, restore_steps]
          · simp only [flow_events, SpawnResult.ret, if_true, logout_events, hc]
            simp only [← List.append_assoc]
            exact hlast _ _ _ _ _

/-- C2 (witness): tablet mode, no logout tool installed, restore invocation fails. -/
theorem restore_after_logout_failure_witness :
    Event.ret_launch (!true) true ∈ gtk_main world_no_logout sample_helper true GTK_RESPONSE_YES []
    ∧ logout_not_found (gtk_main world_no_logout sample_helper true GTK_RESPONSE_YES []) = true
    ∧ ∃ lsp msg r,
      (lsp = [] ∨ ∃ cmdline error, lsp = [Event.spawn Site.logout cmdline
        (SpawnResult.failed error)])
      ∧ steps (gtk_main world_no_logout sample_helper true GTK_RESPONSE_YES [])
        = [Event.call_launch (!true), Event.ret_launch (!true) true,
            Event.call_toggle (!true), Event.ret_toggle (!true),
            Event.idle_add Callback.logout_idle_cb]
          ++ lsp
          ++ [Event.error_dialog logout_error_title msg,
            Event.call_launch true, Event.ret_launch true r]
          ++ (if r then []
              else [Event.error_dialog restore_failure_title (restore_failure_message true)])
          ++ [Event.call_toggle true, Event.ret_toggle true, Event.main_quit]
      ∧ (gtk_main world_no_logout sample_helper true GTK_RESPONSE_YES []).getLast?
          = some Event.main_quit :=
  ⟨by decide, by decide,
    restore_after_logout_failure world_no_logout sample_helper true [] (by decide)
      (Or.inl (by decide))⟩


/-- C3: when the user confirms and the switch invocation (called with the negated
mode) returns failure, the steps of the flow are that one call, the switch-failure
dialog and `gtk_main_quit`: `screen_keyboard_toggled` is not called, no logout
attempt is scheduled or run (nothing is searched for or spawned by
`logout_idle_cb`, there is no restore invocation), and the only command line
spawned is that of the switch invocation. -/
theorem switch_failure_stops_flow (env : Env) (helper : String) (m : Bool) (h : Trace)
    (hfail : Event.ret_launch (!m) false ∈ gtk_main env helper m GTK_RESPONSE_YES h) :
    steps (gtk_main env helper m GTK_RESPONSE_YES h)
        = [Event.call_launch (!m), Event.ret_launch (!m) false,
            Event.error_dialog switching_title (switch_failure_message helper m),
            Event.main_quit]
      ∧ spawned_at Site.toggle (gtk_main env helper m GTK_RESPONSE_YES h) = []
      ∧ spawned_at Site.logout (gtk_main env helper m GTK_RESPONSE_YES h) = []
      ∧ searched_at Site.logout (gtk_main env helper m GTK_RESPONSE_YES h) = []
      ∧ (∃ pk, spawned (gtk_main env helper m GTK_RESPONSE_YES h)
          = [switching_cmdline pk helper (!m)])
      ∧ (gtk_main env helper m GTK_RESPONSE_YES h).getLast? = some Event.main_quit := by
  obtain ⟨a, ha⟩ := gtk_main_yes_spec env helper m h
  rw [ha] at hfail ⊢
  have hs : Event.ret_launch (!m) false ∈ steps (flow_events helper m a) :=
    (mem_steps _ _).2 ⟨hfail, rfl⟩
  rw [steps_flow_events] at hs ⊢
  rcases a with ⟨pk, sw, k1, a1, l1, l2, ls, pk2, rs, k2, a2⟩
  cases sw with
  | exited st =>
    exfalso
    simp only [SpawnResult.ret, if_true, steps_logout_events] at hs
    generalize logout_choice l1 l2 = c at hs
    cases m <;> cases c <;> cases ls <;> cases rs <;>
      simp [restore_steps, SpawnResult.ret] at hs
  | failed error =>
    refine ⟨?_, ?_, ?_, ?_, ⟨pk, ?_⟩, ?_⟩ <;> cases error <;>
      simp [SpawnResult.ret, flow_events, launch_events, spawned_at, searched_at, spawned,
        spawn_warning]

/-- C3 (witness): tablet mode, the switch invocation cannot be spawned. -/
theorem switch_failure_stops_flow_witness :
    Event.ret_launch (!true) false
        ∈ gtk_main world_switch_fails sample_helper true GTK_RESPONSE_YES []
    ∧ steps (gtk_main world_switch_fails sample_helper true GTK_RESPONSE_YES [])
        = [Event.call_launch (!true), Event.ret_launch (!true) false,
            Event.error_dialog switching_title (switch_failure_message sample_helper true),
            Event.main_quit] :=
  ⟨by decide,
    (switch_failure_stops_flow world_switch_fails sample_helper true [] (by decide)).1⟩

/-- C4: for every response other than `GTK_RESPONSE_YES`,
`desktop_mode_switching_dialog_response_cb` destroys the dialog and calls
`gtk_main_quit`, and does nothing else: no call of
`launch_tablet_mode_switching_command` or `screen_keyboard_toggled`, no spawn; the
whole run of the main loop is the dialog, the response, and these two events. -/
theorem cancel_only_quits (env : Env) (helper : String) (m : Bool) (response_id : Int)
    (h : Trace) (hno : response_id ≠ GTK_RESPONSE_YES) :
    desktop_mode_switching_dialog_response_cb env helper m response_id h
        = [Event.widget_destroy, Event.main_quit]
      ∧ spawned (desktop_mode_switching_dialog_response_cb env helper m response_id h) = []
      ∧ steps (desktop_mode_switching_dialog_response_cb env helper m response_id h)
        = [Event.main_quit]
      ∧ gtk_main env helper m response_id h
        = [Event.confirm_dialog switching_title (confirm_message m),
            Event.response response_id, Event.widget_destroy, Event.main_quit] := by
  have hcb : ∀ h', desktop_mode_switching_dialog_response_cb env helper m response_id h'
      = [Event.widget_destroy, Event.main_quit] := by
    intro h'
    simp [desktop_mode_switching_dialog_response_cb, hno]
  refine ⟨hcb h, ?_, ?_, ?_⟩
  · rw [hcb]; rfl
  · rw [hcb]; rfl
  · simp [gtk_main, hcb, desktop_mode_switching_idle]

/-- C4 (witness): the user answers "No". -/
theorem cancel_only_quits_witness :
    GTK_RESPONSE_NO ≠ GTK_RESPONSE_YES
    ∧ desktop_mode_switching_dialog_response_cb world_all_good sample_helper false
        GTK_RESPONSE_NO [] = [Event.widget_destroy, Event.main_quit] :=
  ⟨by decide, (cancel_only_quits world_all_good sample_helper false GTK_RESPONSE_NO []
    (by decide)).1⟩

/-- C8: when the user confirms, the switch invocation succeeds, and a logout
command is found and runs, the steps of the flow are exactly: the call of
`launch_tablet_mode_switching_command` with the negated mode, the call of
`screen_keyboard_toggled` with the negated mode, the scheduling of the logout
attempt, the logout command, and `gtk_main_quit`; the command lines spawned are
those four; there is no restore invocation, no second settings toggle and no error
dialog. -/
theorem success_sequence (env : Env) (helper : String) (m : Bool) (h : Trace)
    (hsw : Event.ret_launch (!m) true ∈ gtk_main env helper m GTK_RESPONSE_YES h)
    (hlo : logout_spawn_done (gtk_main env helper m GTK_RESPONSE_YES h) = true) :
    ∃ pk lo cmdline status,
      (cmdline = lo ++ " --logout --delay=500" ∨ cmdline = lo ++ " --logout --force --no-prompt")
      ∧ steps (gtk_main env helper m GTK_RESPONSE_YES h)
        = [Event.call_launch (!m), Event.ret_launch (!m) true,
            Event.call_toggle (!m), Event.ret_toggle (!m),
            Event.idle_add Callback.logout_idle_cb,
            Event.spawn Site.logout cmdline (SpawnResult.exited status),
            Event.main_quit]
      ∧ spawned (gtk_main env helper m GTK_RESPONSE_YES h)
        = [switching_cmdline pk helper (!m), screen_keyboard_cmdline (!m),
            toolkit_accessibility_cmdline, cmdline]
      ∧ (gtk_main env helper m GTK_RESPONSE_YES h).getLast? = some Event.main_quit := by
  obtain ⟨a, ha⟩ := gtk_main_yes_spec env helper m h
  rw [ha] at hsw hlo ⊢
  rw [logout_spawn_done_steps, steps_flow_events, steps_logout_events] at hlo
  rw [steps_flow_events, steps_logout_events]
  rcases a with ⟨pk, sw, k1, a1, l1, l2, ls, pk2, rs, k2, a2⟩
  cases sw with
  | failed error =>
    exfalso
    simp [SpawnResult.ret, logout_spawn_done, Event.is_done_logout] at hlo
  | exited st =>
    cases ls with
    | failed error =>
      exfalso
      generalize logout_choice l1 l2 = c at hlo
      cases c <;> cases rs <;>
        simp [SpawnResult.ret, logout_spawn_done, Event.is_done_logout, restore_steps] at hlo
    | exited s2 =>
      cases l1 with
      | some p =>
        refine ⟨pk, p, p ++ " --logout --delay=500", s2, Or.inl rfl, ?_, ?_, ?_⟩ <;>
          simp [SpawnResult.ret, logout_choice, flow_events, launch_events, toggle_events,
            logout_events, logout_find_events, spawned]
      | none =>
        cases l2 with
        | some q =>
          refine ⟨pk, q, q ++ " --logout --force --no-prompt", s2, Or.inr rfl, ?_, ?_, ?_⟩ <;>
            simp [SpawnResult.ret, logout_choice, flow_events, launch_events, toggle_events,
              logout_events, logout_find_events, spawned]
        | none =>
          exfalso
          cases rs <;>
            simp [SpawnResult.ret, logout_spawn_done, Event.is_done_logout, restore_steps,
              logout_choice] at hlo

/-- C8 (witness): desktop mode, every command runs and exits with status 0. -/
theorem success_sequence_witness :
    Event.ret_launch (!false) true
        ∈ gtk_main world_all_good sample_helper false GTK_RESPONSE_YES []
    ∧ logout_spawn_done (gtk_main world_all_good sample_helper false GTK_RESPONSE_YES []) = true
    ∧ ∃ pk lo cmdline status,
      (cmdline = lo ++ " --logout --delay=500" ∨ cmdline = lo ++ " --logout --force --no-prompt")
      ∧ steps (gtk_main world_all_good sample_helper false GTK_RESPONSE_YES [])
        = [Event.call_launch (!false), Event.ret_launch (!false) true,
            Event.call_toggle (!false), Event.ret_toggle (!false),
            Event.idle_add Callback.logout_idle_cb,
            Event.spawn Site.logout cmdline (SpawnResult.exited status),
            Event.main_quit]
      ∧ spawned (gtk_main world_all_good sample_helper false GTK_RESPONSE_YES [])
        = [switching_cmdline pk sample_helper (!false), screen_keyboard_cmdline (!false),
            toolkit_accessibility_cmdline, cmdline]
      ∧ (gtk_main world_all_good sample_helper false GTK_RESPONSE_YES []).getLast?
          = some Event.main_quit :=
  ⟨by decide, by decide,
    success_sequence world_all_good sample_helper false [] (by decide) (by decide)⟩

theorem spawned_at_append (site : Site) (x y : Trace) :
    spawned_at site (x ++ y) = spawned_at site x ++ spawned_at site y := by
  simp [spawned_at]

theorem searched_at_append (site : Site) (x y : Trace) :
    searched_at site (x ++ y) = searched_at site x ++ searched_at site y := by
  simp [searched_at]

theorem restore_events_logout_site (helper : String) (m : Bool) (pk : Option String)
    (res r1 r2 : SpawnResult) :
    spawned_at Site.logout (restore_events helper m pk res r1 r2) = []
      ∧ searched_at Site.logout (restore_events helper m pk res r1 r2) = [] := by
  cases res with
  | failed error =>
    cases error <;>
      simp [restore_events, launch_events, toggle_events, spawned_at, searched_at, spawn_warning,
        SpawnResult.ret]
  | exited st =>
    simp [restore_events, launch_events, toggle_events, spawned_at, searched_at, SpawnResult.ret]

theorem restore_logout_site (env : Env) (helper : String) (m : Bool) (h : Trace) :
    spawned_at Site.logout (logout_idle_cb_restore env helper m h) = []
      ∧ searched_at Site.logout (logout_idle_cb_restore env helper m h) = [] := by
  obtain ⟨pk, res, r1, r2, hr⟩ := restore_spec env helper m h
  rw [hr]
  exact restore_events_logout_site helper m pk res r1 r2

/-- C6: `logout_idle_cb` first searches for `gooroom-logout-command`; when it is
found at `p` it searches no further and spawns `p --logout --delay=500`; otherwise
it searches for `gnome-session-quit` and, when that is found at `q`, spawns
`q --logout --force --no-prompt`; when neither is found it spawns no logout
command, shows the "Not found logout command" dialog and continues with the
restore step at once. -/
theorem logout_command_selection (env : Env) (helper : String) (m : Bool) (h : Trace) :
    match env.find_program_in_path h "gooroom-logout-command" with
    | some p =>
        searched_at Site.logout (logout_idle_cb env helper m h).2 = ["gooroom-logout-command"]
        ∧ spawned_at Site.logout (logout_idle_cb env helper m h).2
            = [p ++ " --logout --delay=500"]
    | none =>
        searched_at Site.logout (logout_idle_cb env helper m h).2
            = ["gooroom-logout-command", "gnome-session-quit"]
        ∧ match env.find_program_in_path
              (h ++ [Event.find Site.logout "gooroom-logout-command" none])
              "gnome-session-quit" with
          | some q =>
              spawned_at Site.logout (logout_idle_cb env helper m h).2
                = [q ++ " --logout --force --no-prompt"]
          | none =>
              spawned_at Site.logout (logout_idle_cb env helper m h).2 = []
              ∧ (logout_idle_cb env helper m h).2
                = [Event.find Site.logout "gooroom-logout-command" none,
                    Event.find Site.logout "gnome-session-quit" none,
                    Event.error_dialog "System Logout Error"
                      "Not found logout command.\nInstall gooroom-logout or gnome-session-bin packages."]
                  ++ logout_idle_cb_restore env helper m
                      (h ++ [Event.find Site.logout "gooroom-logout-command" none,
                        Event.find Site.logout "gnome-session-quit" none,
                        Event.error_dialog "System Logout Error"
                          "Not found logout command.\nInstall gooroom-logout or gnome-session-bin packages."]) := by
  simp only [logout_idle_cb, logout_cmdline]
  cases env.find_program_in_path h "gooroom-logout-command" with
  | some p =>
    simp only []
    generalize env.spawn_command_line_sync _ _ = ls
    cases ls with
    | exited st => simp [spawned_at, searched_at]
    | failed error =>
      simp only [spawned_at_append, searched_at_append, restore_logout_site]
      cases error <;> simp [spawned_at, searched_at, spawn_warning, show_error_dialog]
  | none =>
    simp only []
    cases env.find_program_in_path
        (h ++ [Event.find Site.logout "gooroom-logout-command" none]) "gnome-session-quit" with
    | some q =>
      simp only []
      generalize env.spawn_command_line_sync _ _ = ls
      cases ls with
      | exited st => simp [spawned_at, searched_at]
      | failed error =>
        simp only [spawned_at_append, searched_at_append, restore_logout_site]
        cases error <;> simp [spawned_at, searched_at, spawn_warning, show_error_dialog]
    | none =>
      simp only [spawned_at_append, searched_at_append, restore_logout_site]
      simp [spawned_at, searched_at, show_error_dialog, logout_error_title,
        logout_not_found_message]

/-- C7: `screen_keyboard_toggled (on)` spawns exactly two command lines, in this
order: first `/usr/bin/gsettings set org.gnome.desktop.a11y.applications
screen-keyboard-enabled` followed by `true` or `false` according to `on`, then
`/usr/bin/gsettings set org.gnome.desktop.interface toolkit-accessibility true`;
the second is the same for both values of `on` and is spawned whatever the outcome
of the first; nothing else happens and nothing is returned to the caller. -/
theorem screen_keyboard_toggled_two_commands (env : Env) (on_ : Bool) (h : Trace) :
    (∃ r2, screen_keyboard_toggled env on_ h
      = [Event.call_toggle on_,
          Event.spawn Site.toggle
            (if on_ then
              "/usr/bin/gsettings set org.gnome.desktop.a11y.applications screen-keyboard-enabled true"
            else
              "/usr/bin/gsettings set org.gnome.desktop.a11y.applications screen-keyboard-enabled false")
            (env.spawn_command_line_sync (h ++ [Event.call_toggle on_])
              (screen_keyboard_cmdline on_)),
          Event.spawn Site.toggle
            "/usr/bin/gsettings set org.gnome.desktop.interface toolkit-accessibility true" r2,
          Event.ret_toggle on_])
    ∧ spawned (screen_keyboard_toggled env on_ h)
      = [if on_ then
            "/usr/bin/gsettings set org.gnome.desktop.a11y.applications screen-keyboard-enabled true"
          else
            "/usr/bin/gsettings set org.gnome.desktop.a11y.applications screen-keyboard-enabled false",
          "/usr/bin/gsettings set org.gnome.desktop.interface toolkit-accessibility true"] := by
  have h1 : screen_keyboard_cmdline on_
      = (if on_ then
          "/usr/bin/gsettings set org.gnome.desktop.a11y.applications screen-keyboard-enabled true"
        else
          "/usr/bin/gsettings set org.gnome.desktop.a11y.applications screen-keyboard-enabled false") := by
    cases on_ <;> decide
  have h2 : toolkit_accessibility_cmdline
      = "/usr/bin/gsettings set org.gnome.desktop.interface toolkit-accessibility true" := by
    decide
  rw [← h1, ← h2]
  exact ⟨⟨_, rfl⟩, rfl⟩

/-- C9: in the restore step of `logout_idle_cb` the "Desktop Mode Restore Failure"
dialog is shown exactly when the restore invocation
`launch_tablet_mode_switching_command (init_tablet_mode)` returns failure; its
message names `/etc/gooroom/.tablet-mode` and asks to create it when the initial
mode is tablet and to delete it when the initial mode is desktop; in both cases
the settings toggle follows and `gtk_main_quit` comes last. -/
theorem restore_failure_dialog (env : Env) (helper : String) (m : Bool) (h : Trace) :
    steps (logout_idle_cb_restore env helper m h)
      = [Event.call_launch m,
          Event.ret_launch m (launch_tablet_mode_switching_command env helper m h).1]
        ++ (if (launch_tablet_mode_switching_command env helper m h).1 then []
            else [Event.error_dialog "Desktop Mode Restore Failure"
              (if m then
                "Failed to restore Tablet Mode\nPlease create /etc/gooroom/.tablet-mode manually."
              else
                "Failed to restore Normal(PC) Mode\nPlease delete /etc/gooroom/.tablet-mode manually.")])
        ++ [Event.call_toggle m, Event.ret_toggle m, Event.main_quit]
    ∧ (logout_idle_cb_restore env helper m h).getLast? = some Event.main_quit := by
  have hm : restore_failure_message m
      = (if m then
          "Failed to restore Tablet Mode\nPlease create /etc/gooroom/.tablet-mode manually."
        else
          "Failed to restore Normal(PC) Mode\nPlease delete /etc/gooroom/.tablet-mode manually.") := by
    cases m <;> decide
  have ht : restore_failure_title = "Desktop Mode Restore Failure" := rfl
  simp only [logout_idle_cb_restore]
  generalize hL : launch_tablet_mode_switching_command env helper m h = L
  obtain ⟨pk, res, rfl⟩ : ∃ pk res, L = (res.ret, launch_events helper m pk res) :=
    hL ▸ launch_spec env helper m h
  generalize hT : screen_keyboard_toggled env m _ = T
  obtain ⟨r1, r2, rfl⟩ : ∃ r1 r2, T = toggle_events m r1 r2 := hT ▸ toggle_spec env m _
  rw [← hm, ← ht]
  constructor
  · simp only [steps_append, steps_toggle_events]
    cases res <;>
      simp [SpawnResult.ret, steps_launch_events, steps_append, show_error_dialog, steps_cons,
        steps_nil, Event.is_step]
  · simp

end Switcher

namespace Toggler

/-- C10: the screen-keyboard toggler returns exit code 0 on every path, and what it
does is decided by the answers of the world, case by case.  When the sentinel file
is absent it only logs "No Tablet Mode"; when the sentinel is present and the a11y
schema is not found, or the schema is found and no settings object is created, it
only logs; in these three cases it spawns nothing.  When the sentinel is present,
the schema is found and the settings object is created, it reads
`screen-keyboard-enabled` and, for either value read, spawns exactly two command
lines: first the one that sets `screen-keyboard-enabled` to the negation of the
value read, then the one that sets `toolkit-accessibility` to `true`, the second
whatever the outcome of the first. -/
theorem toggler_main_commands (env : Env) :
    (main env).1 = 0
    ∧ match env.file_test [] "/etc/gooroom/.tablet-mode" with
      | false =>
          (main env).2
            = [Event.file_test "/etc/gooroom/.tablet-mode" false,
                Event.syslog "gooroom-screen-keyboard-toggler: No Tablet Mode"]
          ∧ spawned (main env).2 = []
      | true =>
          match env.schema_lookup [Event.file_test "/etc/gooroom/.tablet-mode" true]
              "org.gnome.desktop.a11y.applications" with
          | false =>
              (main env).2
                = [Event.file_test "/etc/gooroom/.tablet-mode" true,
                    Event.schema_lookup "org.gnome.desktop.a11y.applications" false,
                    Event.syslog "gooroom-screen-keyboard-toggler: Couldn't get schema: 'org.gnome.desktop.a11y.applications'",
                    Event.syslog "gooroom-screen-keyboard-toggler: Couldn't create gsettings from schema: org.gnome.desktop.a11y.applications"]
              ∧ spawned (main env).2 = []
          | true =>
              match env.settings_new [Event.file_test "/etc/gooroom/.tablet-mode" true,
                  Event.schema_lookup "org.gnome.desktop.a11y.applications" true] with
              | false =>
                  (main env).2
                    = [Event.file_test "/etc/gooroom/.tablet-mode" true,
                        Event.schema_lookup "org.gnome.desktop.a11y.applications" true,
                        Event.settings_new false,
                        Event.syslog "gooroom-screen-keyboard-toggler: Couldn't create gsettings from schema: org.gnome.desktop.a11y.applications"]
                  ∧ spawned (main env).2 = []
              | true =>
                  (∃ r1 r2, (main env).2
                    = [Event.file_test "/etc/gooroom/.tablet-mode" true,
                        Event.schema_lookup "org.gnome.desktop.a11y.applications" true,
                        Event.settings_new true,
                        Event.get_boolean "screen-keyboard-enabled"
                          (env.get_boolean [Event.file_test "/etc/gooroom/.tablet-mode" true,
                            Event.schema_lookup "org.gnome.desktop.a11y.applications" true,
                            Event.settings_new true] "screen-keyboard-enabled"),
                        Event.spawn Site.toggler
                          (if env.get_boolean [Event.file_test "/etc/gooroom/.tablet-mode" true,
                              Event.schema_lookup "org.gnome.desktop.a11y.applications" true,
                              Event.settings_new true] "screen-keyboard-enabled" then
                            "/usr/bin/gsettings set org.gnome.desktop.a11y.applications screen-keyboard-enabled false"
                          else
                            "/usr/bin/gsettings set org.gnome.desktop.a11y.applications screen-keyboard-enabled true")
                          r1,
                        Event.spawn Site.toggler
                          "/usr/bin/gsettings set org.gnome.desktop.interface toolkit-accessibility true"
                          r2])
                  ∧ spawned (main env).2
                    = [if env.get_boolean [Event.file_test "/etc/gooroom/.tablet-mode" true,
                          Event.schema_lookup "org.gnome.desktop.a11y.applications" true,
                          Event.settings_new true] "screen-keyboard-enabled" then
                        "/usr/bin/gsettings set org.gnome.desktop.a11y.applications screen-keyboard-enabled false"
                      else
                        "/usr/bin/gsettings set org.gnome.desktop.a11y.applications screen-keyboard-enabled true",
                      "/usr/bin/gsettings set org.gnome.desktop.interface toolkit-accessibility true"] := by
  have h1 : ∀ v, screen_keyboard_cmdline v
      = (if v then
          "/usr/bin/gsettings set org.gnome.desktop.a11y.applications screen-keyboard-enabled false"
        else
          "/usr/bin/gsettings set org.gnome.desktop.a11y.applications screen-keyboard-enabled true") := by
    intro v
    cases v <;> decide
  have h2 : toolkit_accessibility_cmdline
      = "/usr/bin/gsettings set org.gnome.desktop.interface toolkit-accessibility true" := by
    decide
  have h3 : ETC_GOOROOM_TABLET_MODE = "/etc/gooroom/.tablet-mode" := rfl
  have h4 : DESKTOP_APPLICATION_SCHEMA_NAME = "org.gnome.desktop.a11y.applications" := rfl
  simp only [main, h3, h4, h2, h1]
  cases env.file_test [] "/etc/gooroom/.tablet-mode" with
  | false => simp [spawned]
  | true =>
    simp only [Bool.not_true, Bool.false_eq_true, if_false, List.append_eq, List.cons_append,
      List.nil_append]
    cases env.schema_lookup [Event.file_test "/etc/gooroom/.tablet-mode" true]
        "org.gnome.desktop.a11y.applications" with
    | false => simp [spawned]
    | true =>
      simp only [if_true]
      cases env.settings_new [Event.file_test "/etc/gooroom/.tablet-mode" true,
          Event.schema_lookup "org.gnome.desktop.a11y.applications" true] with
      | false => simp [spawned]
      | true =>
        simp only [if_true]
        generalize env.get_boolean _ _ = v
        exact ⟨trivial, ⟨_, _, rfl⟩, by simp [spawned]⟩

/-- C10 (evaluation): in tablet mode with the settings available, the key reading
`true` and the first command failing to spawn, the toggler exits with 0 after
spawning the command that sets the key to `false` and then the accessibility
command. -/
theorem toggler_main_commands_witness :
    (main world_tablet_keyboard_on).1 = 0
    ∧ spawned (main world_tablet_keyboard_on).2
      = ["/usr/bin/gsettings set org.gnome.desktop.a11y.applications screen-keyboard-enabled false",
          "/usr/bin/gsettings set org.gnome.desktop.interface toolkit-accessibility true"] :=
  ⟨(toggler_main_commands world_tablet_keyboard_on).1,
    (toggler_main_commands world_tablet_keyboard_on).2.2⟩

end Toggler

end Gooroom
